import Mathlib

/-!
Shallow embedding of `remotestorage/uploader.go` (package `remotestorage`).

The Go file exposes `UploadFile` and `UploadDir` on `*GoogleCloudStorage`.
Both build an admin client, call `CreateBucket` (tolerating the
"You already own this bucket" error), build a storage client, and then
upload.  `UploadDir` walks the source directory into a map
source-path → destination-key, spawns one goroutine per entry, each of
which sends exactly one signal on a done channel or an error channel, and
runs a coordinator loop receiving signals until the completed count equals
the batch size, returning the first received error immediately.

Modelling choices:
  * a Go `error` is its message string (the code only inspects
    `err.Error()` via `strings.Contains`);
  * the external collaborators (admin client, storage client, filesystem,
    walker) are an oracle `World` giving each call's outcome;
  * every call the code makes is recorded as an `Event`, so ordering and
    frame properties are statements about the produced trace (the deferred
    `Close` of the two clients is not recorded: no claim concerns it);
  * goroutine scheduling is an explicit arrival order: a `List Signal`
    saying in which order the coordinator's `select` receives signals; the
    coordinator `coordLoop` consumes that list, returning the unconsumed
    suffix, and `Option.none` models blocking forever.
-/

namespace Remotestorage

/-- A Go error, identified with its message (`err.Error()`). -/
abbrev GoErr := String

/-- `strings.Contains s pat`: `pat` occurs as a substring of `s`
(over the character lists). -/
def hasSub (pat : List Char) : List Char → Bool
  | [] => pat.isEmpty
  | c :: rest => pat.isPrefixOf (c :: rest) || hasSub pat rest

/-- Go `strings.Contains`. -/
def strContains (s pat : String) : Bool :=
  hasSub pat.toList s.toList

/-- The exact error text tolerated by both upload entry points
(uploader.go line 72 and line 119). -/
def alreadyOwnMsg : String :=
  "You already own this bucket. Please select another name"

/-- The error returned on a nil receiver (uploader.go lines 58 and 105). -/
def nilReceiverMsg : String := "GoogleCloudStorage is nil"

/-- `GoogleCloudStorage` wraps the Google Cloud Storage API
(JSONKey, Project, Config).  The claims do not depend on the field
contents; `Config` (a `*jwt.Config` built by `NewGoogleCloudStorage`)
is kept abstract. -/
structure GoogleCloudStorage where
  JSONKey : List Nat
  Project : String
  Config : Unit

/-- Modelled from the spec: the options bag (`Op` built by `applyOpts`
over the variadic `OpOption` arguments; defined in the repository outside
the provided source).  The only recognized option is the contentType
string, empty when unset. -/
structure Op where
  ContentType : String := ""

/-- One observable call made by the code. -/
inductive Event
  | newAdminClient
  | createBucket (bucket : String)
  | newClient
  | walkCall (root : String)
  | newWriter (bucket dst : String)
  | setContentType (dst ct : String)
  | readFileEv (src : String)
  | writeEv (bucket dst : String) (bts : List Nat)
  | closeWriter (dst : String)
  | sendDone
  | sendErr (e : GoErr)
deriving DecidableEq, Repr

/-- A completion signal: a success token on the done channel or an error
value on the error channel. -/
inductive Signal
  | done
  | errSig (e : GoErr)
deriving DecidableEq, Repr, Inhabited

/-- Oracle for every external call: client construction, bucket creation,
the walker, file reads, stream writes and closes.  File contents are byte
lists; write/close outcomes are keyed by destination. -/
structure World where
  newAdminErr : Option GoErr
  createBucketErr : Option GoErr
  newClientErr : Option GoErr
  walkRes : String → Except GoErr (List (String × String))
  readFileRes : String → Except GoErr (List Nat)
  writeErr : String → Option GoErr
  closeErr : String → Option GoErr

/-- The provisioning step shared by both entry points (uploader.go
lines 71-75 and 118-122): `CreateBucket`, tolerating exactly the
`alreadyOwnMsg` error text; any other error is returned. -/
def ensureBucketErr (w : World) : Option GoErr :=
  match w.createBucketErr with
  | none => none
  | some e => if strContains e alreadyOwnMsg then none else some e

/-- `UploadFile` (uploader.go lines 57-102): nil-receiver guard, admin
client, `CreateBucket` with the already-owned tolerance, storage client,
`NewWriter`, optional `ContentType` assignment, `ReadFile`, `Write`,
`Close`.  Returns the event trace and the function's error result. -/
def uploadFile (g : Option GoogleCloudStorage) (w : World)
    (bucket src dst : String) (op : Op) : List Event × Option GoErr :=
  match g with
  | none => ([], some nilReceiverMsg)
  | some _ =>
    match w.newAdminErr with
    | some e => ([Event.newAdminClient], some e)
    | none =>
      let t1 := [Event.newAdminClient, Event.createBucket bucket]
      match ensureBucketErr w with
      | some e => (t1, some e)
      | none =>
        match w.newClientErr with
        | some e => (t1 ++ [Event.newClient], some e)
        | none =>
          let t2 := t1 ++ [Event.newClient, Event.newWriter bucket dst] ++
            (if op.ContentType ≠ "" then [Event.setContentType dst op.ContentType] else [])
          match w.readFileRes src with
          | Except.error e => (t2 ++ [Event.readFileEv src], some e)
          | Except.ok bts =>
            let t3 := t2 ++ [Event.readFileEv src, Event.writeEv bucket dst bts]
            match w.writeErr dst with
            | some e => (t3, some e)
            | none =>
              match w.closeErr dst with
              | some e => (t3 ++ [Event.closeWriter dst], some e)
              | none => (t3 ++ [Event.closeWriter dst], none)

/-- The body of one goroutine spawned by `UploadDir` (uploader.go lines
138-158): `NewWriter`, optional `ContentType`, `ReadFile`, `Write`,
`Close`; each failing step sends the error on the error channel and
returns, success sends the done token.  Channel sends appear in the trace
as `sendErr` / `sendDone` events, one per `<-` statement in the source. -/
def dirTask (w : World) (op : Op) (bucket src dst : String) : List Event :=
  let t1 := [Event.newWriter bucket dst] ++
    (if op.ContentType ≠ "" then [Event.setContentType dst op.ContentType] else [])
  match w.readFileRes src with
  | Except.error e => t1 ++ [Event.readFileEv src, Event.sendErr e]
  | Except.ok bts =>
    let t2 := t1 ++ [Event.readFileEv src, Event.writeEv bucket dst bts]
    match w.writeErr dst with
    | some e => t2 ++ [Event.sendErr e]
    | none =>
      let t3 := t2 ++ [Event.closeWriter dst]
      match w.closeErr dst with
      | some e => t3 ++ [Event.sendErr e]
      | none => t3 ++ [Event.sendDone]

/-- The channel sends occurring in a trace, in order. -/
def sendsOf (tr : List Event) : List Signal :=
  tr.filterMap fun ev =>
    match ev with
    | Event.sendDone => some Signal.done
    | Event.sendErr e => some (Signal.errSig e)
    | _ => none

/-- The (unique) signal a spawned task sends. -/
def dirTaskSignal (w : World) (op : Op) (bucket src dst : String) : Signal :=
  (sendsOf (dirTask w op bucket src dst)).headI

/-- The coordinator loop (uploader.go lines 161-169):
`for cnt != num { select { case <-donec: ; case err := <-errc: return err }; cnt++ }`.
The first argument is `num - cnt` (signals still required); the second is
the order in which signals become available.  Returns `none` when the loop
would block forever, otherwise the loop's result (first error or success)
together with the signals left unconsumed. -/
def coordLoop : Nat → List Signal → Option (Option GoErr × List Signal)
  | 0, rest => some (none, rest)
  | Nat.succ _, [] => none
  | Nat.succ k, Signal.done :: rest => coordLoop k rest
  | Nat.succ _, Signal.errSig e :: rest => some (some e, rest)

/-- The sequential part of `UploadDir` (uploader.go lines 103-135 and
the `walkRecursive` call): nil guard, admin client, provisioning, storage
client, walk.  Returns the trace and either the first error or the
source → destination batch. -/
def uploadDirSetup (g : Option GoogleCloudStorage) (w : World)
    (bucket src : String) : List Event × Except GoErr (List (String × String)) :=
  match g with
  | none => ([], Except.error nilReceiverMsg)
  | some _ =>
    match w.newAdminErr with
    | some e => ([Event.newAdminClient], Except.error e)
    | none =>
      let t1 := [Event.newAdminClient, Event.createBucket bucket]
      match ensureBucketErr w with
      | some e => (t1, Except.error e)
      | none =>
        match w.newClientErr with
        | some e => (t1 ++ [Event.newClient], Except.error e)
        | none =>
          let t2 := t1 ++ [Event.newClient, Event.walkCall src]
          match w.walkRes src with
          | Except.error e => (t2, Except.error e)
          | Except.ok fmap => (t2, Except.ok fmap)

/-- `UploadDir`'s result (uploader.go lines 103-171) for a given arrival
order of the spawned tasks' signals: the setup error if the sequential
part fails, otherwise the coordinator loop's outcome over the batch size.
The `dst` argument is accepted and ignored, exactly as in the source. -/
def uploadDirRun (g : Option GoogleCloudStorage) (w : World)
    (bucket src dst : String) (op : Op) (arrivals : List Signal) :
    Option (Option GoErr) :=
  match (uploadDirSetup g w bucket src).2 with
  | Except.error e => some (some e)
  | Except.ok fmap => (coordLoop fmap.length arrivals).map Prod.fst

/-- Count of write calls to destination key `d` in a trace. -/
def isWriteTo (d : String) : Event → Bool
  | Event.writeEv _ dd _ => dd == d
  | _ => false

/-- Number of writes to destination key `d` in a trace. -/
def writesTo (d : String) (tr : List Event) : Nat :=
  tr.countP (isWriteTo d)

/-- Events that belong to a spawned upload task (as opposed to the
sequential setup). -/
def isTaskEvent : Event → Bool
  | Event.newWriter _ _ => true
  | Event.setContentType _ _ => true
  | Event.readFileEv _ => true
  | Event.writeEv _ _ _ => true
  | Event.closeWriter _ => true
  | Event.sendDone => true
  | Event.sendErr _ => true
  | _ => false

/-- Content-type assignment events. -/
def isCT : Event → Bool
  | Event.setContentType _ _ => true
  | _ => false

/-- Write events (any destination). -/
def isWrite : Event → Bool
  | Event.writeEv _ _ _ => true
  | _ => false

/-- Bucket-creation events. -/
def isCreate : Event → Bool
  | Event.createBucket _ => true
  | _ => false

/-- Writer-opening events. -/
def isNewWriter : Event → Bool
  | Event.newWriter _ _ => true
  | _ => false

/-! Concrete data for witnesses. -/

/-- A concrete receiver. -/
def gcs0 : GoogleCloudStorage := { JSONKey := [], Project := "proj", Config := () }

/-- The empty options bag. -/
def op0 : Op := {}

/-- The batch the concrete walker produces. -/
def fmap0 : List (String × String) :=
  [("/r/a.txt", "a.txt"), ("/r/sub/b.txt", "sub/b.txt")]

/-- A world in which every call succeeds and the walker finds two files. -/
def w0 : World :=
  { newAdminErr := none
    createBucketErr := none
    newClientErr := none
    walkRes := fun _ => Except.ok fmap0
    readFileRes := fun _ => Except.ok [1, 2, 3]
    writeErr := fun _ => none
    closeErr := fun _ => none }

/-- A world whose walker finds an empty directory. -/
def wEmpty : World := { w0 with walkRes := fun _ => Except.ok [] }

/-- A world in which bucket creation fails with a non-owned error. -/
def wDenied : World := { w0 with createBucketErr := some "quota exceeded" }

/-- A world in which reading the local file fails. -/
def wBadRead : World :=
  { w0 with readFileRes := fun _ => Except.error "read failed" }

/-- An options bag carrying a content type. -/
def opCT : Op := { ContentType := "text/plain" }

/-! Coordinator-loop lemmas. -/

theorem coordLoop_all_done :
    ∀ l : List Signal, (∀ s ∈ l, s = Signal.done) →
      coordLoop l.length l = some (none, []) := by
  intro l
  induction l with
  | nil => intro _; rfl
  | cons a t ih =>
    intro h
    have ha : a = Signal.done := h a (List.mem_cons_self a t)
    subst ha
    simpa [coordLoop] using ih (fun s hs => h s (List.mem_cons_of_mem _ hs))

theorem coordLoop_ok_all_done :
    ∀ (n : Nat) (l rest : List Signal), coordLoop n l = some (none, rest) →
      ∀ s ∈ l.take n, s = Signal.done := by
  intro n
  induction n with
  | zero => intro l rest _ s hs; simp at hs
  | succ k ih =>
    intro l rest h s hs
    cases l with
    | nil => simp [coordLoop] at h
    | cons a t =>
      cases a with
      | done =>
        simp only [coordLoop] at h
        rcases List.mem_cons.mp (by simpa using hs) with h1 | h2
        · exact h1
        · exact ih t rest h s h2
      | errSig e => simp [coordLoop] at h

theorem coordLoop_first_error :
    ∀ (pre : List Signal) (n : Nat) (e : GoErr) (post : List Signal),
      (∀ s ∈ pre, s = Signal.done) → pre.length < n →
      coordLoop n (pre ++ Signal.errSig e :: post) = some (some e, post) := by
  intro pre
  induction pre with
  | nil =>
    intro n e post _ hn
    obtain ⟨k, rfl⟩ := Nat.exists_eq_succ_of_ne_zero (Nat.pos_iff_ne_zero.mp hn)
    rfl
  | cons a t ih =>
    intro n e post h hn
    have ha : a = Signal.done := h a (List.mem_cons_self a t)
    subst ha
    obtain ⟨k, rfl⟩ := Nat.exists_eq_succ_of_ne_zero
      (Nat.pos_iff_ne_zero.mp (Nat.lt_of_le_of_lt (Nat.zero_le _) hn))
    have : t.length < k := Nat.lt_of_succ_lt_succ (by simpa using hn)
    simpa [coordLoop] using ih k e post (fun s hs => h s (List.mem_cons_of_mem _ hs)) this

/-! Claim theorems. -/

/-- C1.  First-failure-wins: once the setup has produced a batch, if the
signals arrive as a block of successes followed by the first error, the
coordinator returns exactly that error, and the signals queued after it
are left unconsumed (the loop exits without waiting for them). -/
theorem uploadDir_first_failure
    (g : Option GoogleCloudStorage) (w : World) (b s d : String) (op : Op)
    (fmap : List (String × String)) (pre : List Signal) (e : GoErr)
    (post : List Signal)
    (hsetup : (uploadDirSetup g w b s).2 = Except.ok fmap)
    (hpre : ∀ s' ∈ pre, s' = Signal.done)
    (hlen : pre.length < fmap.length) :
    uploadDirRun g w b s d op (pre ++ Signal.errSig e :: post) = some (some e)
      ∧ coordLoop fmap.length (pre ++ Signal.errSig e :: post)
          = some (some e, post) := by
  have hc := coordLoop_first_error pre fmap.length e post hpre hlen
  constructor
  · simp [uploadDirRun, hsetup, hc]
  · exact hc

/-- C1 witness: with two files found, a success then an error then a
further (never consumed) success yields the error. -/
theorem uploadDir_first_failure_witness :
    uploadDirRun (some gcs0) w0 "b" "/r" "" op0
        [Signal.done, Signal.errSig "boom", Signal.done] = some (some "boom") := by
  have h := uploadDir_first_failure (some gcs0) w0 "b" "/r" "" op0 fmap0
    [Signal.done] "boom" [Signal.done] rfl (by decide) (by decide)
  simpa using h.1

/-- C3.  Empty batch: when the walker produces zero entries the
coordinator loop consumes no signal and `UploadDir` returns success for
every arrival order (in particular the empty one: it never blocks), and
no upload task is spawned. -/
theorem uploadDir_empty_batch
    (g : Option GoogleCloudStorage) (w : World) (b s d : String) (op : Op)
    (arrivals : List Signal)
    (hsetup : (uploadDirSetup g w b s).2 = Except.ok []) :
    uploadDirRun g w b s d op arrivals = some none
      ∧ coordLoop (0 : Nat) arrivals = some (none, arrivals)
      ∧ (([] : List (String × String)).map fun p => dirTask w op b p.1 p.2) = [] := by
  refine ⟨?_, rfl, rfl⟩
  simp [uploadDirRun, hsetup, coordLoop]

/-- C3 witness: an empty directory returns success with no arrivals. -/
theorem uploadDir_empty_batch_witness :
    uploadDirRun (some gcs0) wEmpty "b" "/r" "" op0 [] = some none :=
  (uploadDir_empty_batch (some gcs0) wEmpty "b" "/r" "" op0 [] rfl).1

/-- C9.  Nil receiver: both entry points return the
"GoogleCloudStorage is nil" error on a nil receiver, with an empty trace
(no network or filesystem call is attempted). -/
theorem nil_receiver_guard
    (w : World) (b s d : String) (op : Op) (arrivals : List Signal) :
    uploadFile none w b s d op = ([], some nilReceiverMsg)
      ∧ uploadDirSetup none w b s = ([], Except.error nilReceiverMsg)
      ∧ uploadDirRun none w b s d op arrivals = some (some nilReceiverMsg) := by
  refine ⟨rfl, rfl, ?_⟩
  simp [uploadDirRun, uploadDirSetup]

/-- C4.  Idempotent provisioning: a create-bucket failure carrying the
"already own this bucket" text is treated exactly like a successful
create-bucket call by both entry points, while any other create-bucket
error is returned to the caller (given the admin client was built). -/
theorem idempotent_provisioning
    (g : Option GoogleCloudStorage) (w : World) (b s sd d : String)
    (op : Op) (e : GoErr) :
    (strContains e alreadyOwnMsg = true →
        uploadFile g { w with createBucketErr := some e } b s d op
            = uploadFile g { w with createBucketErr := none } b s d op
          ∧ uploadDirSetup g { w with createBucketErr := some e } b sd
              = uploadDirSetup g { w with createBucketErr := none } b sd)
      ∧ (strContains e alreadyOwnMsg = false → ∀ gcs, g = some gcs →
          w.newAdminErr = none →
          (uploadFile g { w with createBucketErr := some e } b s d op).2 = some e
            ∧ (uploadDirSetup g { w with createBucketErr := some e } b sd).2
                = Except.error e) := by
  constructor
  · intro hc
    constructor
    · simp [uploadFile, ensureBucketErr, hc]
    · simp [uploadDirSetup, ensureBucketErr, hc]
  · intro hc gcs hg ha
    subst hg
    constructor
    · simp [uploadFile, ensureBucketErr, ha, hc]
    · simp [uploadDirSetup, ensureBucketErr, ha, hc]

/-- C4 witness: the already-owned text is tolerated; "quota exceeded"
is returned. -/
theorem idempotent_provisioning_witness :
    (uploadFile (some gcs0) { w0 with createBucketErr := some alreadyOwnMsg }
          "b" "/r/a.txt" "a.txt" op0
        = uploadFile (some gcs0) { w0 with createBucketErr := none }
            "b" "/r/a.txt" "a.txt" op0)
      ∧ (uploadFile (some gcs0) { w0 with createBucketErr := some "quota exceeded" }
            "b" "/r/a.txt" "a.txt" op0).2 = some "quota exceeded" := by
  constructor
  · exact ((idempotent_provisioning (some gcs0) w0 "b" "/r/a.txt" "sd" "a.txt"
      op0 alreadyOwnMsg).1 (by decide)).1
  · exact (((idempotent_provisioning (some gcs0) w0 "b" "/r/a.txt" "sd" "a.txt"
      op0 "quota exceeded").2 (by decide) gcs0 rfl rfl)).1

/-- C5.  Provisioning before uploads: the sequential setup trace of
`UploadDir` contains no upload-task event (tasks only start from the
batch the setup returns), and a non-"already-owned" provisioning failure
makes `UploadDir` return that error with a trace showing neither a walker
call nor any task work. -/
theorem uploadDir_provisioning_first
    (gcs : GoogleCloudStorage) (w : World) (b s d : String) (op : Op)
    (arrivals : List Signal) :
    (∀ ev ∈ (uploadDirSetup (some gcs) w b s).1, isTaskEvent ev = false)
      ∧ (∀ e, w.newAdminErr = none → w.createBucketErr = some e →
          strContains e alreadyOwnMsg = false →
          uploadDirSetup (some gcs) w b s
              = ([Event.newAdminClient, Event.createBucket b], Except.error e)
            ∧ uploadDirRun (some gcs) w b s d op arrivals = some (some e)) := by
  constructor
  · cases ha : w.newAdminErr <;> cases he : ensureBucketErr w <;>
      cases hn : w.newClientErr <;> cases hwk : w.walkRes s <;>
      simp [uploadDirSetup, isTaskEvent, ha, he, hn, hwk]
  · intro e ha hb hc
    have hset : uploadDirSetup (some gcs) w b s
        = ([Event.newAdminClient, Event.createBucket b], Except.error e) := by
      simp [uploadDirSetup, ensureBucketErr, ha, hb, hc]
    refine ⟨hset, ?_⟩
    simp [uploadDirRun, hset]

/-- C5 witness: a quota failure aborts the directory upload. -/
theorem uploadDir_provisioning_first_witness :
    uploadDirRun (some gcs0) wDenied "b" "/r" "" op0 [] = some (some "quota exceeded") :=
  ((uploadDir_provisioning_first gcs0 wDenied "b" "/r" "" op0 []).2
    "quota exceeded" rfl rfl (by decide)).2

/-- C10.  `UploadFile` also provisions the bucket: in every run the
create-bucket call precedes any writer opening, the call is made whenever
the admin client was built, and a non-"already-owned" provisioning
failure returns that error with a trace containing no writer, read or
write event. -/
theorem uploadFile_provisioning
    (gcs : GoogleCloudStorage) (w : World) (b s d : String) (op : Op) :
    ((uploadFile (some gcs) w b s d op).1.filter
          (fun ev => isCreate ev || isNewWriter ev)
        = (uploadFile (some gcs) w b s d op).1.filter isCreate
          ++ (uploadFile (some gcs) w b s d op).1.filter isNewWriter)
      ∧ (w.newAdminErr = none →
          Event.createBucket b ∈ (uploadFile (some gcs) w b s d op).1)
      ∧ (∀ e, w.newAdminErr = none → w.createBucketErr = some e →
          strContains e alreadyOwnMsg = false →
          uploadFile (some gcs) w b s d op
              = ([Event.newAdminClient, Event.createBucket b], some e)) := by
  refine ⟨?_, ?_, ?_⟩
  · cases ha : w.newAdminErr <;> cases he : ensureBucketErr w <;>
      cases hn : w.newClientErr <;> cases hr : w.readFileRes s <;>
      cases hw : w.writeErr d <;> cases hc : w.closeErr d <;>
      by_cases hct : op.ContentType = "" <;>
      simp [uploadFile, isCreate, isNewWriter, ha, he, hn, hr, hw, hc, hct]
  · intro ha
    cases he : ensureBucketErr w <;> cases hn : w.newClientErr <;>
      cases hr : w.readFileRes s <;> cases hw : w.writeErr d <;>
      cases hc : w.closeErr d <;> by_cases hct : op.ContentType = "" <;>
      simp [uploadFile, ha, he, hn, hr, hw, hc, hct]
  · intro e ha hb hc
    simp [uploadFile, ensureBucketErr, ha, hb, hc]

/-- C10 witness: with bucket creation denied, `UploadFile` stops right
after the create-bucket call. -/
theorem uploadFile_provisioning_witness :
    uploadFile (some gcs0) wDenied "b" "/r/a.txt" "a.txt" op0
      = ([Event.newAdminClient, Event.createBucket "b"], some "quota exceeded") :=
  (uploadFile_provisioning gcs0 wDenied "b" "/r/a.txt" "a.txt" op0).2.2
    "quota exceeded" rfl rfl (by decide)

/-- C6.  Exactly one signal: whatever the outcomes of the read, write and
close steps, a spawned upload task performs exactly one channel send —
one done token or one error value, never both, never more than one. -/
theorem dirTask_one_signal (w : World) (op : Op) (b s d : String) :
    (sendsOf (dirTask w op b s d)).length = 1 := by
  unfold dirTask
  cases hr : w.readFileRes s <;> cases hw : w.writeErr d <;>
    cases hc : w.closeErr d <;> by_cases hct : op.ContentType = "" <;>
    simp [sendsOf, hct]

set_option maxHeartbeats 1600000 in
/-- C7.  Content-type iff option: when the option is unset the sink's
content-type is never assigned in any run of the single-file upload or of
a directory task; when it is set, every run of the single-file upload that
reaches the writer (clients built, provisioning tolerated) assigns it
exactly once, and every directory task assigns it exactly once; in all
runs every content-type assignment precedes every data write. -/
theorem contentType_iff_option
    (gcs : GoogleCloudStorage) (w : World) (op : Op) (b s d : String) :
    (op.ContentType = "" →
        (uploadFile (some gcs) w b s d op).1.filter isCT = []
          ∧ (dirTask w op b s d).filter isCT = [])
      ∧ (op.ContentType ≠ "" → w.newAdminErr = none → ensureBucketErr w = none →
          w.newClientErr = none →
          ((uploadFile (some gcs) w b s d op).1.filter isCT).length = 1)
      ∧ (((dirTask w op b s d).filter isCT).length
          = if op.ContentType = "" then 0 else 1)
      ∧ ((uploadFile (some gcs) w b s d op).1.filter
            (fun ev => isCT ev || isWrite ev)
          = (uploadFile (some gcs) w b s d op).1.filter isCT
            ++ (uploadFile (some gcs) w b s d op).1.filter isWrite)
      ∧ ((dirTask w op b s d).filter (fun ev => isCT ev || isWrite ev)
          = (dirTask w op b s d).filter isCT
            ++ (dirTask w op b s d).filter isWrite) := by
  refine ⟨?_, ?_, ?_, ?_, ?_⟩
  · intro hct
    constructor
    · cases ha : w.newAdminErr <;> cases he : ensureBucketErr w <;>
        cases hn : w.newClientErr <;> cases hr : w.readFileRes s <;>
        cases hw : w.writeErr d <;> cases hc : w.closeErr d <;>
        simp [uploadFile, isCT, ha, he, hn, hr, hw, hc, hct]
    · cases hr : w.readFileRes s <;> cases hw : w.writeErr d <;>
        cases hc : w.closeErr d <;> simp [dirTask, isCT, hr, hw, hc, hct]
  · intro hct ha he hn
    cases hr : w.readFileRes s <;> cases hw : w.writeErr d <;>
      cases hc : w.closeErr d <;>
      simp [uploadFile, isCT, ha, he, hn, hr, hw, hc, hct]
  · cases hr : w.readFileRes s <;> cases hw : w.writeErr d <;>
      cases hc : w.closeErr d <;> by_cases hct : op.ContentType = "" <;>
      simp [dirTask, isCT, hr, hw, hc, hct]
  · cases ha : w.newAdminErr <;> cases he : ensureBucketErr w <;>
      cases hn : w.newClientErr <;> cases hr : w.readFileRes s <;>
      cases hw : w.writeErr d <;> cases hc : w.closeErr d <;>
      by_cases hct : op.ContentType = "" <;>
      simp [uploadFile, isCT, isWrite, ha, he, hn, hr, hw, hc, hct]
  · cases hr : w.readFileRes s <;> cases hw : w.writeErr d <;>
      cases hc : w.closeErr d <;> by_cases hct : op.ContentType = "" <;>
      simp [dirTask, isCT, isWrite, hr, hw, hc, hct]

/-- C7 witness: with the option set and a healthy world, the single-file
upload assigns the content-type exactly once. -/
theorem contentType_iff_option_witness :
    ((uploadFile (some gcs0) w0 "b" "/r/a.txt" "a.txt" opCT).1.filter isCT).length = 1 :=
  (contentType_iff_option gcs0 w0 opCT "b" "/r/a.txt" "a.txt").2.1
    (by decide) rfl rfl rfl

/-! Write-count lemmas for the all-or-nothing claim. -/

theorem dirTask_writesTo (w : World) (op : Op) (b src dst d : String) :
    writesTo d (dirTask w op b src dst)
      = match w.readFileRes src with
        | Except.error _ => 0
        | Except.ok _ => if dst == d then 1 else 0 := by
  cases hr : w.readFileRes src <;> cases hw : w.writeErr dst <;>
    cases hc : w.closeErr dst <;> by_cases hct : op.ContentType = "" <;>
    simp [dirTask, writesTo, isWriteTo, hr, hw, hc, hct, List.countP_cons,
      List.countP_append]

theorem dirTask_done_read_ok (w : World) (op : Op) (b src dst : String)
    (h : dirTaskSignal w op b src dst = Signal.done) :
    ∃ bts, w.readFileRes src = Except.ok bts := by
  cases hr : w.readFileRes src with
  | ok bts => exact ⟨bts, rfl⟩
  | error e =>
    exfalso
    by_cases hct : op.ContentType = "" <;>
      simp [dirTaskSignal, dirTask, sendsOf, hr, hct] at h

theorem writesTo_append (d : String) (t1 t2 : List Event) :
    writesTo d (t1 ++ t2) = writesTo d t1 + writesTo d t2 := by
  simp [writesTo, List.countP_append]

theorem writesTo_flatten_done (w : World) (op : Op) (b : String) :
    ∀ fmap : List (String × String),
      (∀ p ∈ fmap, dirTaskSignal w op b p.1 p.2 = Signal.done) →
      ∀ d, writesTo d ((fmap.map fun q => dirTask w op b q.1 q.2).flatten)
        = fmap.countP (fun q => q.2 == d) := by
  intro fmap
  induction fmap with
  | nil => intro _ d; simp [writesTo]
  | cons p t ih =>
    intro h d
    have hp := h p (List.mem_cons_self p t)
    obtain ⟨bts, hr⟩ := dirTask_done_read_ok w op b p.1 p.2 hp
    have hpt : writesTo d (dirTask w op b p.1 p.2) = if p.2 == d then 1 else 0 := by
      rw [dirTask_writesTo, hr]
    have ht := ih (fun q hq => h q (List.mem_cons_of_mem _ hq)) d
    calc writesTo d ((dirTask w op b p.1 p.2)
            :: t.map fun q => dirTask w op b q.1 q.2).flatten
        = writesTo d (dirTask w op b p.1 p.2)
            + writesTo d ((t.map fun q => dirTask w op b q.1 q.2).flatten) := by
          simp [List.flatten, writesTo_append]
      _ = (if p.2 == d then 1 else 0) + t.countP (fun q => q.2 == d) := by
          rw [hpt, ht]
      _ = (p :: t).countP (fun q => q.2 == d) := by
          rw [List.countP_cons]; omega

theorem countP_snd_eq_one :
    ∀ (l : List (String × String)) (p : String × String),
      (l.map Prod.snd).Nodup → p ∈ l →
      l.countP (fun q => q.2 == p.2) = 1 := by
  intro l
  induction l with
  | nil => intro p _ hp; simp at hp
  | cons q t ih =>
    intro p hnd hp
    have hnd' := List.nodup_cons.mp (show (q.2 :: t.map Prod.snd).Nodup from hnd)
    rcases List.mem_cons.mp hp with h1 | h2
    · subst h1
      have hzero : t.countP (fun r => r.2 == p.2) = 0 := by
        rw [List.countP_eq_zero]
        intro r hr
        simp only [beq_iff_eq]
        intro hcontra
        exact hnd'.1 (hcontra ▸ List.mem_map_of_mem Prod.snd hr)
      simp [List.countP_cons, hzero]
    · have hne : (q.2 == p.2) = false := by
        simp only [beq_eq_false_iff_ne, ne_eq]
        intro hcontra
        exact hnd'.1 (hcontra ▸ List.mem_map_of_mem Prod.snd h2)
      rw [List.countP_cons, hne]
      simpa using ih p hnd'.2 h2

/-- C2.  All-or-nothing: the setup's batch spawns exactly one task per
entry; for any arrival order of the tasks' signals `UploadDir` succeeds
exactly when every task signalled success; and in that case, with the
batch's destination keys pairwise distinct, the tasks together perform
exactly one write per discovered file under its destination key. -/
theorem uploadDir_all_or_nothing
    (g : Option GoogleCloudStorage) (w : World) (b s d : String) (op : Op)
    (fmap : List (String × String)) (arrivals : List Signal)
    (hsetup : (uploadDirSetup g w b s).2 = Except.ok fmap)
    (hperm : arrivals.Perm (fmap.map fun p => dirTaskSignal w op b p.1 p.2)) :
    (fmap.map fun p => dirTask w op b p.1 p.2).length = fmap.length
      ∧ (uploadDirRun g w b s d op arrivals = some none
          ↔ ∀ p ∈ fmap, dirTaskSignal w op b p.1 p.2 = Signal.done)
      ∧ ((fmap.map Prod.snd).Nodup →
          (∀ p ∈ fmap, dirTaskSignal w op b p.1 p.2 = Signal.done) →
          ∀ p ∈ fmap,
            writesTo p.2 ((fmap.map fun q => dirTask w op b q.1 q.2).flatten) = 1) := by
  have hlen : arrivals.length = fmap.length := by simpa using hperm.length_eq
  refine ⟨by simp, ⟨?_, ?_⟩, ?_⟩
  · intro h
    have h' : (coordLoop fmap.length arrivals).map Prod.fst = some none := by
      simpa [uploadDirRun, hsetup] using h
    obtain ⟨x, hx, hfst⟩ := Option.map_eq_some'.mp h'
    obtain ⟨x1, x2⟩ := x
    simp only at hfst
    subst hfst
    have htake := coordLoop_ok_all_done fmap.length arrivals x2 hx
    rw [← hlen, List.take_length] at htake
    intro p hp
    exact htake _ (hperm.mem_iff.mpr
      (List.mem_map_of_mem (fun p => dirTaskSignal w op b p.1 p.2) hp))
  · intro hall
    have hall' : ∀ s' ∈ arrivals, s' = Signal.done := by
      intro s' hs'
      obtain ⟨p, hp, rfl⟩ := List.mem_map.mp (hperm.mem_iff.mp hs')
      exact hall p hp
    have hc := coordLoop_all_done arrivals hall'
    rw [hlen] at hc
    simp [uploadDirRun, hsetup, hc]
  · intro hnd hall p hp
    rw [writesTo_flatten_done w op b fmap hall p.2]
    exact countP_snd_eq_one fmap p hnd hp

/-- C2 witness: the two-file batch with all tasks succeeding returns
success. -/
theorem uploadDir_all_or_nothing_witness :
    uploadDirRun (some gcs0) w0 "b" "/r" "" op0
        (fmap0.map fun p => dirTaskSignal w0 op0 "b" p.1 p.2) = some none := by
  have h := uploadDir_all_or_nothing (some gcs0) w0 "b" "/r" "" op0 fmap0
    (fmap0.map fun p => dirTaskSignal w0 op0 "b" p.1 p.2) rfl (List.Perm.refl _)
  exact h.2.1.mpr (by decide)

/-- C8.  Verbatim propagation: each failure point — admin-client
construction, bucket creation (non-tolerated), storage-client
construction, file read, stream write, stream close, and the walker —
returns exactly the error the collaborator produced, with no wrapping,
translation or retry, both in `UploadFile` and in a directory task's
signal (and the walker failure aborts `UploadDir`'s setup). -/
theorem verbatim_error_propagation
    (gcs : GoogleCloudStorage) (w : World) (b s d : String) (op : Op)
    (e : GoErr) (bts : List Nat) :
    (w.newAdminErr = some e → (uploadFile (some gcs) w b s d op).2 = some e)
      ∧ (w.newAdminErr = none → w.createBucketErr = some e →
          strContains e alreadyOwnMsg = false →
          (uploadFile (some gcs) w b s d op).2 = some e)
      ∧ (w.newAdminErr = none → ensureBucketErr w = none →
          w.newClientErr = some e → (uploadFile (some gcs) w b s d op).2 = some e)
      ∧ (w.newAdminErr = none → ensureBucketErr w = none →
          w.newClientErr = none → w.readFileRes s = Except.error e →
          (uploadFile (some gcs) w b s d op).2 = some e)
      ∧ (w.newAdminErr = none → ensureBucketErr w = none →
          w.newClientErr = none → w.readFileRes s = Except.ok bts →
          w.writeErr d = some e → (uploadFile (some gcs) w b s d op).2 = some e)
      ∧ (w.newAdminErr = none → ensureBucketErr w = none →
          w.newClientErr = none → w.readFileRes s = Except.ok bts →
          w.writeErr d = none → w.closeErr d = some e →
          (uploadFile (some gcs) w b s d op).2 = some e)
      ∧ (w.newAdminErr = none → ensureBucketErr w = none →
          w.newClientErr = none → w.walkRes s = Except.error e →
          (uploadDirSetup (some gcs) w b s).2 = Except.error e)
      ∧ (w.readFileRes s = Except.error e →
          sendsOf (dirTask w op b s d) = [Signal.errSig e])
      ∧ (w.readFileRes s = Except.ok bts → w.writeErr d = some e →
          sendsOf (dirTask w op b s d) = [Signal.errSig e])
      ∧ (w.readFileRes s = Except.ok bts → w.writeErr d = none →
          w.closeErr d = some e →
          sendsOf (dirTask w op b s d) = [Signal.errSig e]) := by
  refine ⟨?_, ?_, ?_, ?_, ?_, ?_, ?_, ?_, ?_, ?_⟩
  · intro h1; simp [uploadFile, h1]
  · intro h1 h2 h3; simp [uploadFile, ensureBucketErr, h1, h2, h3]
  · intro h1 h2 h3; simp [uploadFile, h1, h2, h3]
  · intro h1 h2 h3 h4
    by_cases hct : op.ContentType = "" <;> simp [uploadFile, h1, h2, h3, h4, hct]
  · intro h1 h2 h3 h4 h5
    by_cases hct : op.ContentType = "" <;>
      simp [uploadFile, h1, h2, h3, h4, h5, hct]
  · intro h1 h2 h3 h4 h5 h6
    by_cases hct : op.ContentType = "" <;>
      simp [uploadFile, h1, h2, h3, h4, h5, h6, hct]
  · intro h1 h2 h3 h4; simp [uploadDirSetup, h1, h2, h3, h4]
  · intro h1
    by_cases hct : op.ContentType = "" <;> simp [dirTask, sendsOf, h1, hct]
  · intro h1 h2
    by_cases hct : op.ContentType = "" <;> simp [dirTask, sendsOf, h1, h2, hct]
  · intro h1 h2 h3
    by_cases hct : op.ContentType = "" <;>
      simp [dirTask, sendsOf, h1, h2, h3, hct]

/-- C8 witness: a failing local read is returned verbatim. -/
theorem verbatim_error_propagation_witness :
    (uploadFile (some gcs0) wBadRead "b" "/r/a.txt" "a.txt" op0).2
      = some "read failed" :=
  (verbatim_error_propagation gcs0 wBadRead "b" "/r/a.txt" "a.txt" op0
    "read failed" []).2.2.2.1 rfl rfl rfl rfl

end Remotestorage
